import Mathlib

/- Verification development for the bitwarden_cli_toolkit repository.

   It shallowly embeds the session/transport layer of
   src/bitwarden_cli_toolkit/bwcli_wrapper.py (class BWCli) and the
   permission inheritance loop of src/bitwarden_cli_toolkit/__main__.py
   (function inherit_permissions), and proves or refutes the frozen
   claims about them.

   Modelling conventions:
   - Python JSON values (results of json.loads, payloads of json.dumps)
     are modelled by the inductive type JValue; Python truthiness of such
     values is modelled by jtruthy.
   - External effects (spawning the bw executable via command_runner,
     json.loads / json.dumps, the REST requestor) are oracles collected in
     a World record; each operation additionally returns the list of
     external calls it issued, in order, so that claims about which
     commands are invoked can be stated.
   - os.environ is modelled as an association list Env; only the
     BW_SESSION key is ever touched by the code under study.
   - Python argument lists may contain None (this actually happens in
     BWCli.edit when encode fails), so command argument vectors are
     List (Option String). -/

set_option autoImplicit false

/-- Minimal model of Python JSON values (dicts keep insertion order). -/
inductive JValue : Type where
  | null : JValue
  | bool (b : Bool) : JValue
  | num (n : Int) : JValue
  | str (s : String) : JValue
  | arr (xs : List JValue) : JValue
  | obj (fields : List (String × JValue)) : JValue

/-- Python dict key access `j[key]`, as a partial lookup. A `none` result
corresponds to Python raising KeyError (or TypeError on non-dicts); the
places where the modelled code would raise are noted at each use site. -/
def jget (j : JValue) (key : String) : Option JValue :=
  match j with
  | JValue.obj fields => (fields.find? (fun kv => kv.fst == key)).map (fun kv => kv.snd)
  | _ => none

/-- Python truthiness of a JSON value. -/
def jtruthy : JValue → Bool
  | JValue.null => false
  | JValue.bool b => b
  | JValue.num n => n != 0
  | JValue.str s => s != ""
  | JValue.arr xs => !xs.isEmpty
  | JValue.obj fs => !fs.isEmpty

/-- Python truthiness of an optional JSON value (None is falsy). -/
def otruthy : Option JValue → Bool
  | none => false
  | some j => jtruthy j

/-- Python truthiness of an optional string (None and "" are falsy). -/
def optTruthy : Option String → Bool
  | none => false
  | some s => s != ""

/-- Python f-string rendering of an optional string (None prints as "None"). -/
def fstrOpt : Option String → String
  | none => "None"
  | some s => s

/-- The process environment (os.environ), as an association list. -/
abbrev Env := List (String × String)

/-- Lookup in os.environ. -/
def envGet : Env → String → Option String
  | [], _ => none
  | kv :: rest, k => if kv.fst == k then some kv.snd else envGet rest k

/-- os.environ.pop(key, None): remove every binding of the key. -/
def envPop : Env → String → Env
  | [], _ => []
  | kv :: rest, k => if kv.fst == k then envPop rest k else kv :: envPop rest k

/-- os.environ[key] = value. -/
def envSet (e : Env) (k v : String) : Env := (k, v) :: envPop e k

/-- Input handed to command_runner: either an argument list (run) or a
single shell line (encode). Python lists may hold None. -/
inductive CmdInput : Type where
  | args (xs : List (Option String)) : CmdInput
  | line (s : String) : CmdInput

/-- One external call issued by the wrapper: a process invocation or a
REST request (path, action, payload). -/
inductive Call : Type where
  | proc (c : CmdInput) : Call
  | rest (path : String) (action : String) (data : Option JValue) : Call

/-- Result of BWCli.run: parsed JSON in normal mode, the raw output
string in raw mode. -/
inductive RunResult : Type where
  | json (v : JValue) : RunResult
  | raw (s : String) : RunResult

/-- Python truthiness of the value returned by BWCli.run. -/
def rtruthy : Option RunResult → Bool
  | none => false
  | some (RunResult.raw s) => s != ""
  | some (RunResult.json j) => jtruthy j

/-- Oracles for everything external to the wrapper: command_runner,
json.loads, json.dumps and the ofunctions Requestor. -/
structure World : Type where
  commandRunner : CmdInput → Int × String
  jsonLoads : String → Option JValue
  jsonDumps : JValue → String
  requestor : String → String → Option JValue → Option JValue

/-- The mutable attributes of a BWCli instance that the modelled methods
read or write. -/
structure BWCliState : Type where
  bwExecutable : String
  session : Option String
  username : String
  password : String
  useRest : Bool

/-- Outcome of one wrapper method: its return value, the instance state
after the call, the process environment after the call, and the external
calls issued (in order). -/
structure StepOut (α : Type) : Type where
  res : α
  st : BWCliState
  env : Env
  calls : List Call

/-- BWCli.run (bwcli_wrapper.py lines 152-187). Sets BW_SESSION when
with_session is given and the stored session is truthy, invokes the
executable, then pops BW_SESSION whenever the stored session is truthy
(the pop happens before the exit-code branch, hence on every return
path). Exit code 0 yields the raw output (raw mode) or the json.loads
result, where a decode failure yields None; non-zero exit yields None. -/
def BWCli.run (w : World) (st : BWCliState) (env : Env) (args : List (Option String))
    (withSession raw : Bool) : StepOut (Option RunResult) :=
  let env1 : Env :=
    match st.session with
    | some s => if withSession && s != "" then envSet env "BW_SESSION" s else env
    | none => env
  let cmd := CmdInput.args (some st.bwExecutable :: args)
  let r := w.commandRunner cmd
  let env2 : Env :=
    match st.session with
    | some s => if s != "" then envPop env1 "BW_SESSION" else env1
    | none => env1
  let res : Option RunResult :=
    if r.fst = 0 then
      if raw then some (RunResult.raw r.snd)
      else
        match w.jsonLoads r.snd with
        | some v => some (RunResult.json v)
        | none => none
    else none
  ⟨res, st, env2, [Call.proc cmd]⟩

theorem envGet_envPop (e : Env) (k : String) : envGet (envPop e k) k = none := by
  induction e with
  | nil => rfl
  | cons kv rest ih =>
    by_cases h : kv.fst = k
    · simp [envPop, h, ih]
    · simp [envPop, envGet, h, ih]

/-- After any BWCli.run call whose stored session is truthy (not None and
not empty), BW_SESSION is absent from os.environ, whatever with_session,
raw, the exit code and the decodability of the output are. -/
theorem run_clears_bwsession (w : World) (st : BWCliState) (env : Env)
    (args : List (Option String)) (withSession raw : Bool) (s : String)
    (hs : st.session = some s) (hne : s ≠ "") :
    envGet (BWCli.run w st env args withSession raw).env "BW_SESSION" = none := by
  simp only [BWCli.run, hs]
  have hbne : (s != "") = true := by simpa using hne
  simp [hbne, envGet_envPop]

/-- Claim C2 (amended): for every BWCli.run call with a non-null and
nonempty stored session token, BW_SESSION is absent from the process
environment when run returns, on every return path (success, decode
failure and non-zero exit alike). -/
theorem claim_c2_run_removes_bwsession (w : World) (st : BWCliState) (env : Env)
    (args : List (Option String)) (withSession raw : Bool) (s : String)
    (hs : st.session = some s) (hne : s ≠ "") :
    envGet (BWCli.run w st env args withSession raw).env "BW_SESSION" = none :=
  run_clears_bwsession w st env args withSession raw s hs hne

/-- A world whose command always exits 0 with undecodable output; the
particular responses are irrelevant to the environment claims. -/
def wNop : World :=
  { commandRunner := fun _ => (0, "out")
    jsonLoads := fun _ => none
    jsonDumps := fun _ => "dumped"
    requestor := fun _ _ _ => none }

/-- A BWCli state holding the empty string as its session token: in Python
this arises from BWCli(..., session="") and is not None, yet falsy. -/
def stEmptyTok : BWCliState :=
  { bwExecutable := "bw", session := some "", username := "user"
    password := "pass", useRest := false }

theorem claim_c2_witness :
    envGet (BWCli.run wNop
      { bwExecutable := "bw", session := some "tok", username := "user"
        password := "pass", useRest := false }
      [("BW_SESSION", "stale")] [some "status"] true false).env "BW_SESSION" = none :=
  claim_c2_run_removes_bwsession wNop
    { bwExecutable := "bw", session := some "tok", username := "user"
      password := "pass", useRest := false }
    [("BW_SESSION", "stale")] [some "status"] true false "tok" rfl (by decide)

/-- Claim C2 as stated is false: with the non-null but empty session token
"" (Python: not None, but falsy), the cleanup pop is skipped, so a
BW_SESSION value present before the call survives it. -/
theorem claim_c2_counterexample :
    stEmptyTok.session.isSome = true ∧
      envGet (BWCli.run wNop stEmptyTok [("BW_SESSION", "leftover")]
        [some "status"] true false).env "BW_SESSION" = some "leftover" :=
  ⟨rfl, rfl⟩

/-- Claim C9 (amended): even with with_session=False, a BWCli.run call
whose stored session token is non-null and nonempty removes BW_SESSION
from the process environment: a caller-provided BW_SESSION value present
before the call does not survive it. -/
theorem claim_c9_pop_ignores_with_session (w : World) (st : BWCliState) (env : Env)
    (args : List (Option String)) (raw : Bool) (s : String)
    (hs : st.session = some s) (hne : s ≠ "") :
    envGet (BWCli.run w st env args false raw).env "BW_SESSION" = none :=
  run_clears_bwsession w st env args false raw s hs hne

theorem claim_c9_witness :
    envGet (BWCli.run wNop
      { bwExecutable := "bw", session := some "tok9", username := "user"
        password := "pass", useRest := false }
      [("BW_SESSION", "caller-provided")] [some "list"] false true).env "BW_SESSION" = none :=
  claim_c9_pop_ignores_with_session wNop
    { bwExecutable := "bw", session := some "tok9", username := "user"
      password := "pass", useRest := false }
    [("BW_SESSION", "caller-provided")] [some "list"] true "tok9" rfl (by decide)

/-- Claim C9 as stated is false: the cleanup pop is conditioned on Python
truthiness of the stored token, not mere non-nullness, so with the
non-null empty token "" a caller-provided BW_SESSION survives a
with_session=False call. -/
theorem claim_c9_counterexample :
    stEmptyTok.session.isSome = true ∧
      envGet (BWCli.run wNop stEmptyTok [("BW_SESSION", "keep")]
        [some "list"] false false).env "BW_SESSION" = some "keep" :=
  ⟨rfl, rfl⟩

/-- The single-object kinds whose envelopes run_as_rest unwraps
(bwcli_wrapper.py lines 125-141). -/
def recognizedKinds : List String :=
  ["item", "username", "password", "uri", "totp", "notes", "exposed",
   "attachment", "folder", "collection", "org-collection", "organization",
   "template", "fingerprint", "send"]

/-- The unwrapping of a successful REST envelope (bwcli_wrapper.py lines
123-142): on data.object == "list" return data.data, on a recognized
single-object kind return data, otherwise fall off the end of the
function (None). Missing "data"/"object" keys would raise KeyError in
Python; they are modelled as a None result and lie outside the scope of the claims. -/
def unwrapRestData (result : JValue) : Option JValue :=
  match jget result "data" with
  | some d =>
    match jget d "object" with
    | some (JValue.str s) =>
      if s == "list" then jget d "data"
      else if recognizedKinds.contains s then some d
      else none
    | _ => none
  | none => none

/-- BWCli.run_as_rest (bwcli_wrapper.py lines 108-150). The action is
"update" when a truthy payload is present, "read" otherwise; a falsy or
absent requestor result, or an envelope whose success field is not the
literal True, yields None. The create_session call on the external
Requestor (line 111) has no modelled effect. A truthy envelope without a
"success" key would raise KeyError in Python; it is modelled as None and
lies outside the scope of the claims. -/
def BWCli.run_as_rest (w : World) (path : String) (data : Option JValue) :
    Option JValue × List Call :=
  let action := if otruthy data then "update" else "read"
  let res : Option JValue :=
    match w.requestor path action data with
    | some result =>
      if jtruthy result then
        match jget result "success" with
        | some (JValue.bool true) => unwrapRestData result
        | _ => none
      else none
    | none => none
  (res, [Call.rest path action data])

/-- Claim C3: process-mode run returns None (it cannot raise) on a
non-zero exit code, and on exit code 0 with non-decodable output in
non-raw mode; REST-mode run_as_rest returns None (it cannot raise) when
the requestor yields no response or an envelope whose success field is
not true. -/
theorem claim_c3_failures_return_none
    (w1 : World) (st1 : BWCliState) (env1 : Env) (args1 : List (Option String))
    (ws1 raw1 : Bool)
    (h1 : (w1.commandRunner (CmdInput.args (some st1.bwExecutable :: args1))).fst ≠ 0)
    (w2 : World) (st2 : BWCliState) (env2 : Env) (args2 : List (Option String))
    (ws2 : Bool)
    (h2a : (w2.commandRunner (CmdInput.args (some st2.bwExecutable :: args2))).fst = 0)
    (h2b : w2.jsonLoads (w2.commandRunner (CmdInput.args (some st2.bwExecutable :: args2))).snd = none)
    (w3 : World) (path3 : String) (data3 : Option JValue)
    (h3 : ∀ r, w3.requestor path3 (if otruthy data3 then "update" else "read") data3 = some r →
      ∃ v, jget r "success" = some v ∧ v ≠ JValue.bool true) :
    (BWCli.run w1 st1 env1 args1 ws1 raw1).res = none ∧
    (BWCli.run w2 st2 env2 args2 ws2 false).res = none ∧
    (BWCli.run_as_rest w3 path3 data3).fst = none := by
  refine ⟨?_, ?_, ?_⟩
  · simp [BWCli.run, h1]
  · simp [BWCli.run, h2a, h2b]
  · show (let action := if otruthy data3 then "update" else "read"
      let res : Option JValue :=
        match w3.requestor path3 action data3 with
        | some result =>
          if jtruthy result then
            match jget result "success" with
            | some (JValue.bool true) => unwrapRestData result
            | _ => none
          else none
        | none => none
      (res, [Call.rest path3 action data3])).fst = none
    cases hr : w3.requestor path3 (if otruthy data3 then "update" else "read") data3 with
    | none => simp [hr]
    | some r =>
      obtain ⟨v, hv, hvne⟩ := h3 r hr
      by_cases ht : jtruthy r = true
      · simp only [hr, ht, if_true, hv]
        cases v with
        | bool b =>
          cases b with
          | true => exact absurd rfl hvne
          | false => simp
        | null => simp
        | num n => simp
        | str s => simp
        | arr xs => simp
        | obj fs => simp
      · simp [hr, ht]

/-- A world whose run commands fail with exit code 7. -/
def wFailExit : World :=
  { commandRunner := fun _ => (7, "boom")
    jsonLoads := fun _ => none
    jsonDumps := fun _ => "dumped"
    requestor := fun _ _ _ => some (JValue.obj [("success", JValue.bool false)]) }

theorem claim_c3_witness :
    (BWCli.run wFailExit stEmptyTok [] [some "status"] true false).res = none ∧
    (BWCli.run wNop stEmptyTok [] [some "status"] true false).res = none ∧
    (BWCli.run_as_rest wFailExit "/object/item/x/?" none).fst = none :=
  claim_c3_failures_return_none
    wFailExit stEmptyTok [] [some "status"] true false (by decide)
    wNop stEmptyTok [] [some "status"] true rfl rfl
    wFailExit "/object/item/x/?" none
    (by
      intro r hr
      refine ⟨JValue.bool false, ?_, by simp⟩
      have : r = JValue.obj [("success", JValue.bool false)] := by
        simpa [wFailExit] using hr.symm
      simp [this, jget])

/-- BWCli.status (bwcli_wrapper.py lines 189-209): some true = unlocked,
some false = locked, none = unauthenticated, unrecognized status text, or
any run failure. A truthy non-dict result or a dict without a "status"
key would raise in Python; both are modelled as none and lie outside the
scope of the claims. -/
def BWCli.status (w : World) (st : BWCliState) (env : Env) : StepOut (Option Bool) :=
  let r := BWCli.run w st env [some "status"] true false
  let v : Option Bool :=
    match r.res with
    | some (RunResult.json j) =>
      if jtruthy j then
        match jget j "status" with
        | some (JValue.str s) =>
          if s == "locked" then some false
          else if s == "unlocked" then some true
          else none
        | _ => none
      else none
    | _ => none
  ⟨v, st, r.env, r.calls⟩

/-- Python str.strip(): drop leading and trailing whitespace. Defined by
structural recursion on the character list so that concrete instances
evaluate inside the kernel. -/
def stripLeading : List Char → List Char
  | [] => []
  | c :: cs => if c.isWhitespace then stripLeading cs else c :: cs

def pyStrip (s : String) : String :=
  String.mk (List.reverse (stripLeading (List.reverse (stripLeading s.data))))

/-- BWCli.logout (bwcli_wrapper.py lines 227-240): on a truthy raw result
the local session is cleared and True returned; otherwise the state is
left untouched and False returned. -/
def BWCli.logout (w : World) (st : BWCliState) (env : Env) : StepOut Bool :=
  let r := BWCli.run w st env [some "logout"] true true
  if rtruthy r.res then
    ⟨true, { st with session := none }, r.env, r.calls⟩
  else
    ⟨false, st, r.env, r.calls⟩

/-- BWCli.unlock (bwcli_wrapper.py lines 242-256): on a truthy raw result
the stripped output becomes the session token and True is returned. -/
def BWCli.unlock (w : World) (st : BWCliState) (env : Env) : StepOut Bool :=
  let r := BWCli.run w st env [some "unlock", some "--raw", some st.password] true true
  match r.res with
  | some (RunResult.raw out) =>
    if out != "" then ⟨true, { st with session := some (pyStrip out) }, r.env, r.calls⟩
    else ⟨false, st, r.env, r.calls⟩
  | _ => ⟨false, st, r.env, r.calls⟩

/-- The fresh-login tail of BWCli.login_as_user (bwcli_wrapper.py lines
282-297): run login --raw with the truthy credentials appended; on a
truthy raw result store the stripped token and return True. The
run_server() call made on success is a @threaded function, so the caller
receives a thread handle, which is truthy: the "not self.run_server()"
failure branch can never be taken and has no modelled effect. -/
def loginFresh (w : World) (st : BWCliState) (env : Env) (prev : List Call) : StepOut Bool :=
  let args := [some "login", some "--raw"]
    ++ (if st.username != "" then [some st.username] else [])
    ++ (if st.password != "" then [some st.password] else [])
  let r := BWCli.run w st env args true true
  match r.res with
  | some (RunResult.raw out) =>
    if out != "" then ⟨true, { st with session := some (pyStrip out) }, r.env, prev ++ r.calls⟩
    else ⟨false, st, r.env, prev ++ r.calls⟩
  | _ => ⟨false, st, r.env, prev ++ r.calls⟩

/-- BWCli.login_as_user (bwcli_wrapper.py lines 258-297). If status() is
True, return True at once (run_server() returns a truthy thread handle,
see loginFresh). If status() is None, clear the session and perform a
fresh login. If status() is False, unlock(); on unlock success return
True, and on unlock failure fall through to the fresh login, exactly as
the Python control flow does. -/
def BWCli.login_as_user (w : World) (st : BWCliState) (env : Env) : StepOut Bool :=
  let s := BWCli.status w st env
  match s.res with
  | some true => ⟨true, st, s.env, s.calls⟩
  | some false =>
    let u := BWCli.unlock w st s.env
    if u.res then ⟨true, u.st, u.env, s.calls ++ u.calls⟩
    else loginFresh w u.st u.env (s.calls ++ u.calls)
  | none => loginFresh w { st with session := none } s.env s.calls

/-- BWCli.config (bwcli_wrapper.py lines 211-225): if status() is True or
False, logout() first (its return value is ignored); then run
"config server [url]", with the url appended and raw mode used only when
the url is truthy. -/
def BWCli.config (w : World) (st : BWCliState) (env : Env) (serverUrl : Option String) :
    StepOut (Option RunResult) :=
  let s := BWCli.status w st env
  let after : BWCliState × Env × List Call :=
    match s.res with
    | some _ =>
      let l := BWCli.logout w st s.env
      (l.st, l.env, s.calls ++ l.calls)
    | none => (st, s.env, s.calls)
  let st1 := after.fst
  let env1 := after.snd.fst
  let calls1 := after.snd.snd
  match serverUrl with
  | some u =>
    if u != "" then
      let r := BWCli.run w st1 env1 [some "config", some "server", some u] true true
      ⟨r.res, st1, r.env, calls1 ++ r.calls⟩
    else
      let r := BWCli.run w st1 env1 [some "config", some "server"] true false
      ⟨r.res, st1, r.env, calls1 ++ r.calls⟩
  | none =>
    let r := BWCli.run w st1 env1 [some "config", some "server"] true false
    ⟨r.res, st1, r.env, calls1 ++ r.calls⟩

/-- Recognizer for a fresh login command: an argument vector whose second
entry is the "login" subcommand. -/
def isLoginCall : Call → Bool
  | Call.proc (CmdInput.args (_ :: a :: _)) => a == some "login"
  | _ => false

/-- A BWCli state holding an ordinary (truthy) session token. -/
def stTok : BWCliState :=
  { bwExecutable := "bw", session := some "tok", username := "user"
    password := "pass", useRest := false }

/-- Claim C8: when the underlying logout command yields a truthy result
the local session token is cleared and True is returned; when it yields a
falsy result the local session token is left exactly as it was and False
is returned. -/
theorem claim_c8_logout_clears_session
    (w1 : World) (st1 : BWCliState) (env1 : Env)
    (w2 : World) (st2 : BWCliState) (env2 : Env)
    (h1 : rtruthy (BWCli.run w1 st1 env1 [some "logout"] true true).res = true)
    (h2 : rtruthy (BWCli.run w2 st2 env2 [some "logout"] true true).res = false) :
    ((BWCli.logout w1 st1 env1).res = true ∧ (BWCli.logout w1 st1 env1).st.session = none) ∧
    ((BWCli.logout w2 st2 env2).res = false ∧ (BWCli.logout w2 st2 env2).st.session = st2.session) := by
  constructor
  · constructor <;> simp [BWCli.logout, h1]
  · constructor <;> simp [BWCli.logout, h2]

/-- A world whose every command exits 0 with the same chatty output. -/
def wLogoutOk : World :=
  { commandRunner := fun _ => (0, "You have logged out.")
    jsonLoads := fun _ => none
    jsonDumps := fun _ => "dumped"
    requestor := fun _ _ _ => none }

theorem claim_c8_witness :
    ((BWCli.logout wLogoutOk stTok []).res = true ∧
      (BWCli.logout wLogoutOk stTok []).st.session = none) ∧
    ((BWCli.logout wFailExit stTok []).res = false ∧
      (BWCli.logout wFailExit stTok []).st.session = stTok.session) :=
  claim_c8_logout_clears_session wLogoutOk stTok [] wFailExit stTok [] (by decide) (by decide)

/-- Claim C4 (amended): for every config(server_url) call with a truthy
server_url made while status() reports Locked or Unlocked, the logout
command is issued after the status query and before the config-server
command, and provided that logout command yields a truthy result, the
local session token is None by the time the new endpoint is set. (When
the logout command fails, the code still sets the endpoint and the stale
token survives; see the counterexample.) -/
theorem claim_c4_config_forces_logout (w : World) (st : BWCliState) (env : Env) (u : String)
    (hst : ∃ b, (BWCli.status w st env).res = some b)
    (hu : u ≠ "")
    (hlog : rtruthy (BWCli.run w st (BWCli.status w st env).env [some "logout"] true true).res = true) :
    (BWCli.config w st env (some u)).st.session = none ∧
    (BWCli.config w st env (some u)).calls =
      [Call.proc (CmdInput.args [some st.bwExecutable, some "status"]),
       Call.proc (CmdInput.args [some st.bwExecutable, some "logout"]),
       Call.proc (CmdInput.args [some st.bwExecutable, some "config", some "server", some u])] := by
  obtain ⟨b, hb⟩ := hst
  have hub : (u != "") = true := by simpa using hu
  constructor
  · simp only [BWCli.config, hb, BWCli.logout, hlog, hub]
    simp
  · simp only [BWCli.config, hb, BWCli.logout, hlog, hub]
    simp [BWCli.status, BWCli.run]

/-- A world where status reports unlocked, logout succeeds and the
config-server command succeeds. -/
def wC4ok : World :=
  { commandRunner := fun c =>
      match c with
      | CmdInput.args [some "bw", some "status"] => (0, "status-json")
      | CmdInput.args [some "bw", some "logout"] => (0, "You have logged out.")
      | CmdInput.args [some "bw", some "config", some "server", some "https://new.example"] =>
        (0, "Saved setting config")
      | _ => (1, "")
    jsonLoads := fun s =>
      if s == "status-json" then some (JValue.obj [("status", JValue.str "unlocked")]) else none
    jsonDumps := fun _ => "dumped"
    requestor := fun _ _ _ => none }

theorem claim_c4_witness :
    (BWCli.config wC4ok stTok [] (some "https://new.example")).st.session = none ∧
    (BWCli.config wC4ok stTok [] (some "https://new.example")).calls =
      [Call.proc (CmdInput.args [some stTok.bwExecutable, some "status"]),
       Call.proc (CmdInput.args [some stTok.bwExecutable, some "logout"]),
       Call.proc (CmdInput.args [some stTok.bwExecutable, some "config", some "server",
         some "https://new.example"])] :=
  claim_c4_config_forces_logout wC4ok stTok [] "https://new.example"
    ⟨true, rfl⟩ (by decide) (by decide)

/-- A world identical to wC4ok except that the logout command fails. -/
def wC4bad : World :=
  { commandRunner := fun c =>
      match c with
      | CmdInput.args [some "bw", some "status"] => (0, "status-json")
      | CmdInput.args [some "bw", some "logout"] => (1, "logout failed")
      | CmdInput.args [some "bw", some "config", some "server", some "https://new.example"] =>
        (0, "Saved setting config")
      | _ => (1, "")
    jsonLoads := fun s =>
      if s == "status-json" then some (JValue.obj [("status", JValue.str "unlocked")]) else none
    jsonDumps := fun _ => "dumped"
    requestor := fun _ _ _ => none }

/-- Claim C4 as stated is false: with the session Unlocked but the logout
command failing, config still issues the config-server command (the
endpoint is set) while the local session token is still the old non-None
value. -/
theorem claim_c4_counterexample :
    (BWCli.status wC4bad stTok []).res = some true ∧
    (BWCli.config wC4bad stTok [] (some "https://new.example")).st.session = some "tok" ∧
    (BWCli.config wC4bad stTok [] (some "https://new.example")).calls =
      [Call.proc (CmdInput.args [some "bw", some "status"]),
       Call.proc (CmdInput.args [some "bw", some "logout"]),
       Call.proc (CmdInput.args [some "bw", some "config", some "server",
         some "https://new.example"])] :=
  ⟨rfl, rfl, rfl⟩

/-- Claim C7: login_as_user (a) succeeds without issuing a login command
when status() is Unlocked; (b) when status() is Locked, it issues the
unlock command and, when that command yields a truthy result, returns
success without issuing a login command, storing the stripped unlock
output as the session token; (c) only otherwise (status() None) does it
perform a fresh login with username and password, storing the stripped
login output as the session token on success. -/
theorem claim_c7_login_as_user
    (w1 : World) (st1 : BWCliState) (env1 : Env)
    (h1 : (BWCli.status w1 st1 env1).res = some true)
    (w2 : World) (st2 : BWCliState) (env2 : Env)
    (h2 : (BWCli.status w2 st2 env2).res = some false)
    (h2a : (w2.commandRunner (CmdInput.args
      [some st2.bwExecutable, some "unlock", some "--raw", some st2.password])).fst = 0)
    (h2b : (w2.commandRunner (CmdInput.args
      [some st2.bwExecutable, some "unlock", some "--raw", some st2.password])).snd ≠ "")
    (w3 : World) (st3 : BWCliState) (env3 : Env)
    (h3 : (BWCli.status w3 st3 env3).res = none)
    (hu3 : st3.username ≠ "") (hp3 : st3.password ≠ "")
    (h3a : (w3.commandRunner (CmdInput.args
      [some st3.bwExecutable, some "login", some "--raw", some st3.username, some st3.password])).fst = 0)
    (h3b : (w3.commandRunner (CmdInput.args
      [some st3.bwExecutable, some "login", some "--raw", some st3.username, some st3.password])).snd ≠ "") :
    ((BWCli.login_as_user w1 st1 env1).res = true ∧
      (BWCli.login_as_user w1 st1 env1).calls.any isLoginCall = false) ∧
    ((BWCli.login_as_user w2 st2 env2).res = true ∧
      (BWCli.login_as_user w2 st2 env2).st.session =
        some (pyStrip ((w2.commandRunner (CmdInput.args
          [some st2.bwExecutable, some "unlock", some "--raw", some st2.password])).snd)) ∧
      (BWCli.login_as_user w2 st2 env2).calls =
        [Call.proc (CmdInput.args [some st2.bwExecutable, some "status"]),
         Call.proc (CmdInput.args [some st2.bwExecutable, some "unlock", some "--raw", some st2.password])] ∧
      (BWCli.login_as_user w2 st2 env2).calls.any isLoginCall = false) ∧
    ((BWCli.login_as_user w3 st3 env3).res = true ∧
      (BWCli.login_as_user w3 st3 env3).st.session =
        some (pyStrip ((w3.commandRunner (CmdInput.args
          [some st3.bwExecutable, some "login", some "--raw", some st3.username, some st3.password])).snd)) ∧
      (BWCli.login_as_user w3 st3 env3).calls =
        [Call.proc (CmdInput.args [some st3.bwExecutable, some "status"]),
         Call.proc (CmdInput.args [some st3.bwExecutable, some "login", some "--raw",
           some st3.username, some st3.password])]) := by
  have h2bb : ((w2.commandRunner (CmdInput.args
      [some st2.bwExecutable, some "unlock", some "--raw", some st2.password])).snd != "") = true := by
    simpa using h2b
  have h3bb : ((w3.commandRunner (CmdInput.args
      [some st3.bwExecutable, some "login", some "--raw", some st3.username, some st3.password])).snd != "") = true := by
    simpa using h3b
  have hu3b : (st3.username != "") = true := by simpa using hu3
  have hp3b : (st3.password != "") = true := by simpa using hp3
  refine ⟨⟨?_, ?_⟩, ⟨?_, ?_, ?_, ?_⟩, ⟨?_, ?_, ?_⟩⟩
  · simp only [BWCli.login_as_user, h1]
  · simp only [BWCli.login_as_user, h1]
    simp [BWCli.status, BWCli.run, isLoginCall]
  · simp only [BWCli.login_as_user, h2]
    simp [BWCli.unlock, BWCli.status, BWCli.run, h2a, h2b]
  · simp only [BWCli.login_as_user, h2]
    simp [BWCli.unlock, BWCli.status, BWCli.run, h2a, h2b]
  · simp only [BWCli.login_as_user, h2]
    simp [BWCli.unlock, BWCli.status, BWCli.run, h2a, h2b]
  · simp only [BWCli.login_as_user, h2]
    simp [BWCli.unlock, BWCli.status, BWCli.run, h2a, h2b, isLoginCall]
  · simp only [BWCli.login_as_user, h3]
    simp [loginFresh, BWCli.status, BWCli.run, hu3b, hp3b, h3a, h3b]
  · simp only [BWCli.login_as_user, h3]
    simp [loginFresh, BWCli.status, BWCli.run, hu3b, hp3b, h3a, h3b]
  · simp only [BWCli.login_as_user, h3]
    simp [loginFresh, BWCli.status, BWCli.run, hu3b, hp3b, h3a, h3b]

/-- A world whose status command reports unlocked. -/
def wStatusUnlocked : World :=
  { commandRunner := fun c =>
      match c with
      | CmdInput.args [some "bw", some "status"] => (0, "status-json")
      | _ => (1, "")
    jsonLoads := fun s =>
      if s == "status-json" then some (JValue.obj [("status", JValue.str "unlocked")]) else none
    jsonDumps := fun _ => "dumped"
    requestor := fun _ _ _ => none }

/-- A world whose status command reports locked and whose unlock command
succeeds, returning a token with surrounding whitespace. -/
def wStatusLocked : World :=
  { commandRunner := fun c =>
      match c with
      | CmdInput.args [some "bw", some "status"] => (0, "status-json")
      | CmdInput.args [some "bw", some "unlock", some "--raw", some "pass"] =>
        (0, " unlock-token \n")
      | _ => (1, "")
    jsonLoads := fun s =>
      if s == "status-json" then some (JValue.obj [("status", JValue.str "locked")]) else none
    jsonDumps := fun _ => "dumped"
    requestor := fun _ _ _ => none }

/-- A world whose status command reports unauthenticated and whose login
command succeeds. -/
def wStatusUnauth : World :=
  { commandRunner := fun c =>
      match c with
      | CmdInput.args [some "bw", some "status"] => (0, "status-json")
      | CmdInput.args [some "bw", some "login", some "--raw", some "user", some "pass"] =>
        (0, "fresh-token\n")
      | _ => (1, "")
    jsonLoads := fun s =>
      if s == "status-json" then some (JValue.obj [("status", JValue.str "unauthenticated")]) else none
    jsonDumps := fun _ => "dumped"
    requestor := fun _ _ _ => none }

theorem claim_c7_witness :
    ((BWCli.login_as_user wStatusUnlocked stTok []).res = true ∧
      (BWCli.login_as_user wStatusUnlocked stTok []).calls.any isLoginCall = false) ∧
    ((BWCli.login_as_user wStatusLocked stTok []).res = true ∧
      (BWCli.login_as_user wStatusLocked stTok []).st.session = some "unlock-token" ∧
      (BWCli.login_as_user wStatusLocked stTok []).calls =
        [Call.proc (CmdInput.args [some "bw", some "status"]),
         Call.proc (CmdInput.args [some "bw", some "unlock", some "--raw", some "pass"])] ∧
      (BWCli.login_as_user wStatusLocked stTok []).calls.any isLoginCall = false) ∧
    ((BWCli.login_as_user wStatusUnauth stTok []).res = true ∧
      (BWCli.login_as_user wStatusUnauth stTok []).st.session = some "fresh-token" ∧
      (BWCli.login_as_user wStatusUnauth stTok []).calls =
        [Call.proc (CmdInput.args [some "bw", some "status"]),
         Call.proc (CmdInput.args [some "bw", some "login", some "--raw",
           some "user", some "pass"])]) := by
  have h := claim_c7_login_as_user
    wStatusUnlocked stTok [] rfl
    wStatusLocked stTok [] rfl rfl (by decide)
    wStatusUnauth stTok [] rfl (by decide) (by decide) rfl (by decide)
  obtain ⟨⟨a1, a2⟩, ⟨b1, b2, b3, b4⟩, ⟨c1, c2, c3⟩⟩ := h
  refine ⟨⟨a1, a2⟩, ⟨b1, ?_, ?_, b4⟩, ⟨c1, ?_, ?_⟩⟩
  · rw [b2]; decide
  · rw [b3]; rfl
  · rw [c2]; decide
  · rw [c3]; rfl

/-- Python str.join over a separator. -/
def joinWith (sep : String) : List String → String
  | [] => ""
  | [x] => x
  | x :: xs => x ++ sep ++ joinWith sep xs

/-- BWCli.encode (bwcli_wrapper.py lines 380-396): a dict payload is
serialized with json.dumps(..., separators=(",", ":")), the echo pipe
line is built with " ".join and executed through the shell; exit code 0
yields the stripped output, otherwise the function falls off its end
(None). A string payload passes through the isinstance(dict) check
unchanged; payloads of any other type would raise TypeError inside the
join and lie outside the modelled domain (edit only ever passes dicts). -/
def BWCli.encode (w : World) (st : BWCliState) (data : JValue) : Option String × List Call :=
  let payload : String :=
    match data with
    | JValue.obj _ => w.jsonDumps data
    | JValue.str s => s
    | _ => w.jsonDumps data
  let line := joinWith " " ["echo", payload, "|", st.bwExecutable, "encode"]
  let r := w.commandRunner (CmdInput.line line)
  (if r.fst = 0 then some (pyStrip r.snd) else none, [Call.proc (CmdInput.line line)])

/-- BWCli.edit (bwcli_wrapper.py lines 398-422). REST mode: build the
object path plus id/organizationId query and submit the payload directly
through run_as_rest (encode is never touched). Process mode: first pass
the payload through encode, then append the encode result — even when it
is None — as the final command argument and run "edit". The Python
signature allows data=None, but that value would raise TypeError inside
encode before any command runs, so the model takes the payload as given
data. -/
def BWCli.edit (w : World) (st : BWCliState) (env : Env) (objectType : String)
    (objectId : Option String) (organizationId : Option String) (data : JValue) :
    StepOut (Option RunResult) :=
  if st.useRest then
    let query : List String :=
      (if optTruthy objectId then ["id=" ++ fstrOpt objectId] else [])
      ++ (if optTruthy organizationId then ["organizationId=" ++ fstrOpt organizationId] else [])
    let path := "/object/" ++ objectType ++ "/" ++ fstrOpt objectId ++ "/?" ++ joinWith "&" query
    let r := BWCli.run_as_rest w path (some data)
    ⟨r.fst.map RunResult.json, st, env, r.snd⟩
  else
    let e := BWCli.encode w st data
    let args := [some "edit", some objectType, objectId]
      ++ (if optTruthy organizationId then [some ("--organizationid=" ++ fstrOpt organizationId)] else [])
      ++ [e.fst]
    let r := BWCli.run w st env args true false
    ⟨r.res, st, r.env, e.snd ++ r.calls⟩

/-- Recognizer for process invocations among the issued calls. -/
def isProcCall : Call → Bool
  | Call.proc _ => true
  | Call.rest _ _ _ => false

/-- run_as_rest issues exactly one REST call, whatever the outcome. -/
theorem run_as_rest_calls (w : World) (path : String) (data : Option JValue) :
    (BWCli.run_as_rest w path data).snd =
      [Call.rest path (if otruthy data then "update" else "read") data] := rfl

/-- Claim C5: a process-mode edit call first passes the payload through
encode (the encode pipe is the first issued call) and submits the encode
result — not the raw payload — as the final argument of the edit
command; a REST-mode edit call submits the payload directly as
structured data in a single REST request and never invokes encode (no
process call at all is issued). -/
theorem claim_c5_edit_encode_asymmetry (w : World) (stP stR : BWCliState) (env : Env)
    (oid orgid : String) (data : JValue)
    (hP : stP.useRest = false) (hR : stR.useRest = true)
    (hoid : oid ≠ "") (horg : orgid ≠ "") (hd : jtruthy data = true) :
    ((BWCli.edit w stP env "org-collection" (some oid) (some orgid) data).calls =
        (BWCli.encode w stP data).snd
        ++ [Call.proc (CmdInput.args [some stP.bwExecutable, some "edit", some "org-collection",
             some oid, some ("--organizationid=" ++ orgid), (BWCli.encode w stP data).fst])] ∧
      (BWCli.edit w stP env "org-collection" (some oid) (some orgid) data).res =
        (BWCli.run w stP env [some "edit", some "org-collection", some oid,
          some ("--organizationid=" ++ orgid), (BWCli.encode w stP data).fst] true false).res) ∧
    ((BWCli.edit w stR env "org-collection" (some oid) (some orgid) data).calls =
        [Call.rest ("/object/org-collection/" ++ oid ++ "/?" ++
          ("id=" ++ oid ++ "&" ++ ("organizationId=" ++ orgid))) "update" (some data)] ∧
      (BWCli.edit w stR env "org-collection" (some oid) (some orgid) data).calls.any isProcCall
        = false) := by
  have horgb : (orgid != "") = true := by simpa using horg
  have hoidb : (oid != "") = true := by simpa using hoid
  refine ⟨⟨?_, ?_⟩, ?_, ?_⟩
  · simp [BWCli.edit, hP, optTruthy, fstrOpt, horgb, BWCli.run]
  · simp [BWCli.edit, hP, optTruthy, fstrOpt, horgb, BWCli.run]
  · simp only [BWCli.edit, hR, if_true]
    simp [optTruthy, fstrOpt, hoidb, horgb, run_as_rest_calls, otruthy, hd, joinWith]
  · simp only [BWCli.edit, hR, if_true]
    simp [optTruthy, fstrOpt, hoidb, horgb, run_as_rest_calls, otruthy, hd, joinWith, isProcCall]

/-- A world whose encode pipe succeeds (with whitespace around the
token), whose process commands succeed and whose requestor succeeds. -/
def wC5 : World :=
  { commandRunner := fun c =>
      match c with
      | CmdInput.line _ => (0, " encoded-blob \n")
      | CmdInput.args _ => (0, "edit-out")
    jsonLoads := fun _ => some (JValue.obj [("object", JValue.str "org-collection")])
    jsonDumps := fun _ => "payload-json"
    requestor := fun _ _ _ => some (JValue.obj [("success", JValue.bool true),
      ("data", JValue.obj [("object", JValue.str "org-collection")])]) }

/-- stTok with REST mode enabled. -/
def stRest : BWCliState :=
  { bwExecutable := "bw", session := some "tok", username := "user"
    password := "pass", useRest := true }

/-- A nonempty dict payload. -/
def dataC5 : JValue := JValue.obj [("name", JValue.str "X")]

theorem claim_c5_witness :
    ((BWCli.edit wC5 stTok [] "org-collection" (some "cid") (some "org1") dataC5).calls =
        [Call.proc (CmdInput.line "echo payload-json | bw encode"),
         Call.proc (CmdInput.args [some "bw", some "edit", some "org-collection", some "cid",
           some "--organizationid=org1", some "encoded-blob"])] ∧
      (BWCli.edit wC5 stTok [] "org-collection" (some "cid") (some "org1") dataC5).res =
        (BWCli.run wC5 stTok [] [some "edit", some "org-collection", some "cid",
          some "--organizationid=org1", (BWCli.encode wC5 stTok dataC5).fst] true false).res) ∧
    ((BWCli.edit wC5 stRest [] "org-collection" (some "cid") (some "org1") dataC5).calls =
        [Call.rest "/object/org-collection/cid/?id=cid&organizationId=org1" "update"
          (some dataC5)] ∧
      (BWCli.edit wC5 stRest [] "org-collection" (some "cid") (some "org1") dataC5).calls.any
        isProcCall = false) := by
  have h := claim_c5_edit_encode_asymmetry wC5 stTok stRest [] "cid" "org1" dataC5
    rfl rfl (by decide) (by decide) rfl
  obtain ⟨⟨p1, p2⟩, r1, r2⟩ := h
  refine ⟨⟨?_, p2⟩, ?_, r2⟩
  · rw [p1]; rfl
  · rw [r1]; rfl

/-- Claim C10: when the encode step of a process-mode edit fails (encode
returns None), edit does not short-circuit: it still issues the external
edit command, with the None encode result appended as the final payload
argument, and returns whatever that run returns. -/
theorem claim_c10_edit_appends_none (w : World) (st : BWCliState) (env : Env)
    (ot : String) (oid orgid : Option String) (data : JValue)
    (hP : st.useRest = false)
    (henc : (BWCli.encode w st data).fst = none) :
    (BWCli.edit w st env ot oid orgid data).calls =
      (BWCli.encode w st data).snd
      ++ [Call.proc (CmdInput.args (some st.bwExecutable :: ([some "edit", some ot, oid]
          ++ (if optTruthy orgid then [some ("--organizationid=" ++ fstrOpt orgid)] else [])
          ++ [none])))] ∧
    (BWCli.edit w st env ot oid orgid data).res =
      (BWCli.run w st env ([some "edit", some ot, oid]
        ++ (if optTruthy orgid then [some ("--organizationid=" ++ fstrOpt orgid)] else [])
        ++ [none]) true false).res := by
  constructor
  · simp [BWCli.edit, hP, henc, BWCli.run]
  · simp [BWCli.edit, hP, henc, BWCli.run]

/-- A world whose encode pipe fails while the edit command succeeds. -/
def wC10 : World :=
  { commandRunner := fun c =>
      match c with
      | CmdInput.line _ => (1, "encode failed")
      | CmdInput.args _ => (0, "edit-out")
    jsonLoads := fun _ => some (JValue.str "edit-result")
    jsonDumps := fun _ => "payload-json"
    requestor := fun _ _ _ => none }

theorem claim_c10_witness :
    (BWCli.encode wC10 stTok dataC5).fst = none ∧
    (BWCli.edit wC10 stTok [] "org-collection" (some "cid") none dataC5).calls =
      [Call.proc (CmdInput.line "echo payload-json | bw encode"),
       Call.proc (CmdInput.args [some "bw", some "edit", some "org-collection", some "cid",
         none])] ∧
    (BWCli.edit wC10 stTok [] "org-collection" (some "cid") none dataC5).res =
      some (RunResult.json (JValue.str "edit-result")) := by
  have h := claim_c10_edit_appends_none wC10 stTok [] "org-collection" (some "cid") none dataC5
    rfl rfl
  refine ⟨rfl, ?_, ?_⟩
  · rw [h.1]; rfl
  · rw [h.2]; rfl

/-- An org-collection as the inheritance loop sees it: a JSON dict whose
"name", "users" and "groups" entries are the only fields the loop
inspects or rewrites (all other fields ride along unchanged and are not
modelled). The users/groups values are opaque JSON (the operator-supplied
permission lists are json.loads results). -/
structure Collection : Type where
  name : String
  users : JValue
  groups : JValue

/-- The two cli.org_collection shapes used by inherit_permissions
(__main__.py lines 70-72 and 87-91): a fetch (get) and an update (edit
with payload). inherit_permissions receives the cli object as a
parameter, so the engine is modelled against this interface; the update
result is the edit result, whose Python truthiness decides the failure
branch. -/
structure CliOps : Type where
  fetch : String → Option Collection
  update : String → Collection → Option JValue

/-- The two terminal notifications of the inheritance run
(__main__.py lines 114-120). -/
inductive Popup : Type where
  | error (msg : String) : Popup
  | info (msg : String) : Popup
deriving DecidableEq

/-- The loop-carried state of the Execute-action iteration: attempted
collection ids (in order), the text appended to the output widget, the
update calls actually submitted (id and payload), the progress texts and
the has_failures flag. -/
structure InheritState : Type where
  attempts : List String
  output : List String
  updates : List (String × Collection)
  progress : List String
  hasFailures : Bool

/-- The two permission overrides of __main__.py lines 82-85: a truthy
user_permissions replaces users wholesale, a truthy group_permissions
replaces groups wholesale; falsy ones leave the field untouched. -/
def applyPerms (up gp : JValue) (col : Collection) : Collection :=
  let col1 := if jtruthy up then { col with users := up } else col
  if jtruthy gp then { col1 with groups := gp } else col1

/-- One iteration of the inheritance loop (__main__.py lines 67-112).
A missing collection appends the "not found" message and continues —
without touching has_failures and without a progress update (the
continue skips lines 109-112). A falsy update result appends the
"Failed to update" message and sets has_failures. A truthy update result
appends the success message and the progress text. The per-iteration
try/except only matters for exceptions the oracles cannot produce here. -/
def inheritStep (cli : CliOps) (up gp : JValue) (total : Nat)
    (acc : InheritState × Nat) (cid : String) : InheritState × Nat :=
  let st := acc.fst
  let idx := acc.snd
  let st1 : InheritState := { st with attempts := st.attempts ++ [cid] }
  match cli.fetch cid with
  | none =>
    ({ st1 with output := st1.output ++ ["Collection " ++ cid ++ " not found.\n"] }, idx + 1)
  | some col =>
    let col2 := applyPerms up gp col
    let st2 := { st1 with updates := st1.updates ++ [(cid, col2)] }
    if otruthy (cli.update cid col2) then
      ({ st2 with
          output := st2.output ++ ["Updated collection " ++ col2.name ++ " with users and groups.\n"]
          progress := st2.progress ++
            [toString (idx + 1) ++ "/" ++ toString total ++ " collections processed"] },
        idx + 1)
    else
      ({ st2 with
          output := st2.output ++ ["Failed to update collection " ++ col2.name ++ "\n"]
          hasFailures := true }, idx + 1)

/-- Outcome of one Execute-action run of inherit_permissions. -/
structure InheritOut : Type where
  attempts : List String
  output : List String
  updates : List (String × Collection)
  progress : List String
  hasFailures : Bool
  popup : Popup

/-- The Execute-action branch of inherit_permissions (__main__.py lines
63-120): iterate over the collection ids in input order and show the
terminal popup. The popup guard `index >= len(collection_ids) - 1` is
always true once the loop has finished (index is the last enumerate
value, or the initial 0 for an empty list), so the popup choice is
exactly the has_failures flag. -/
def inherit_permissions (cli : CliOps) (collectionIds : List String) (up gp : JValue) :
    InheritOut :=
  let init : InheritState :=
    { attempts := [], output := [], updates := [], progress := [], hasFailures := false }
  let fin := (List.foldl (inheritStep cli up gp collectionIds.length) (init, 0) collectionIds).fst
  { attempts := fin.attempts, output := fin.output, updates := fin.updates
    progress := fin.progress, hasFailures := fin.hasFailures
    popup :=
      if fin.hasFailures then
        Popup.error "Some collections failed to update. Check the output for details."
      else Popup.info "All collections updated successfully." }

/-- A cli in which collection "k" is unreachable (fetch returns None)
while "a" and "b" are fetched and updated successfully. -/
def cliC1 : CliOps :=
  { fetch := fun cid =>
      if cid == "k" then none
      else some { name := "COL-" ++ cid, users := JValue.arr [], groups := JValue.arr [] }
    update := fun _ _ => some (JValue.bool true) }

/-- Claim C1 evaluated at the failing input ["a", "k", "b"] with "k"
unreachable: every target is attempted exactly once in input order, the
"not found" failure for "k" is recorded in the output and processing
continues past it — but has_failures stays false, so the terminal popup
is the all-succeeded notification: the aggregate report does not
distinguish this failing run from an all-success run, contradicting the
claim (the has_failures flag is simply never set on the not-found
branch, unlike the update-failure branch). -/
theorem claim_c1_notfound_not_aggregated :
    (inherit_permissions cliC1 ["a", "k", "b"] (JValue.arr []) (JValue.arr [])).attempts
      = ["a", "k", "b"] ∧
    (inherit_permissions cliC1 ["a", "k", "b"] (JValue.arr []) (JValue.arr [])).output
      = ["Updated collection COL-a with users and groups.\n",
         "Collection k not found.\n",
         "Updated collection COL-b with users and groups.\n"] ∧
    (inherit_permissions cliC1 ["a", "k", "b"] (JValue.arr []) (JValue.arr [])).hasFailures
      = false ∧
    (inherit_permissions cliC1 ["a", "k", "b"] (JValue.arr []) (JValue.arr [])).popup
      = Popup.info "All collections updated successfully." :=
  ⟨rfl, rfl, rfl, rfl⟩

/-- Every update submitted by the inheritance loop is the applyPerms
rewrite of a successfully fetched collection. -/
theorem inherit_updates_spec (cli : CliOps) (up gp : JValue) (total : Nat)
    (ids : List String) (acc : InheritState × Nat)
    (hacc : ∀ p ∈ acc.fst.updates, ∃ c0, cli.fetch p.fst = some c0 ∧ p.snd = applyPerms up gp c0) :
    ∀ p ∈ (List.foldl (inheritStep cli up gp total) acc ids).fst.updates,
      ∃ c0, cli.fetch p.fst = some c0 ∧ p.snd = applyPerms up gp c0 := by
  induction ids generalizing acc with
  | nil => exact hacc
  | cons cid ids ih =>
    intro p hp
    refine ih (inheritStep cli up gp total acc cid) ?_ p hp
    intro q hq
    dsimp only [inheritStep] at hq
    cases hf : cli.fetch cid with
    | none =>
      rw [hf] at hq
      simp only at hq
      exact hacc q hq
    | some col =>
      rw [hf] at hq
      by_cases hu : otruthy (cli.update cid (applyPerms up gp col)) = true
      · simp only [hu, if_true] at hq
        simp only [List.mem_append, List.mem_singleton] at hq
        rcases hq with hq | hq
        · exact hacc q hq
        · exact ⟨col, by rw [hq]; exact hf, by rw [hq]⟩
      · have hu2 : otruthy (cli.update cid (applyPerms up gp col)) = false := by
          simpa using hu
        simp only [hu2, Bool.false_eq_true, if_false] at hq
        simp only [List.mem_append, List.mem_singleton] at hq
        rcases hq with hq | hq
        · exact hacc q hq
        · exact ⟨col, by rw [hq]; exact hf, by rw [hq]⟩

/-- The operator-supplied user permission list of the concrete spec
scenario: users=[{"id":"u1","readOnly":true}]. -/
def upC6 : JValue :=
  JValue.arr [JValue.obj [("id", JValue.str "u1"), ("readOnly", JValue.bool true)]]

/-- The pre-existing group permission list of the child collection. -/
def groupsOldC6 : JValue :=
  JValue.arr [JValue.obj [("id", JValue.str "gOld"), ("readOnly", JValue.bool false)]]

/-- The child collection Parent/Child (id c2) before inheritance. -/
def colC2 : Collection :=
  { name := "Parent/Child"
    users := JValue.arr [JValue.obj [("id", JValue.str "uOld")]]
    groups := groupsOldC6 }

/-- A cli exposing only the child collection c2, whose updates succeed. -/
def cliC6 : CliOps :=
  { fetch := fun cid => if cid == "c2" then some colC2 else none
    update := fun _ _ => some (JValue.bool true) }

/-- The payload the scenario must submit for c2: users replaced wholesale
by the supplied list, groups left untouched (the supplied list is empty,
hence falsy). -/
def colC2After : Collection :=
  { name := "Parent/Child", users := upC6, groups := groupsOldC6 }

/-- Claim C6: (general part) every collection submitted by an inheritance
run is a successfully fetched target whose users field is the supplied
set when that set is truthy and the fetched field otherwise — wholesale
replacement, no merging — and likewise for groups, the name being
untouched; (concrete part) running inheritance against the single
reachable target c2 with users=[{"id":"u1","readOnly":true}] and
groups=[] submits exactly the fetched c2 with its users replaced by the
supplied list and its groups unmodified, and reports one processed
target with no failures. -/
theorem claim_c6_wholesale_replacement :
    (∀ (cli : CliOps) (up gp : JValue) (ids : List String) (p : String × Collection),
        p ∈ (inherit_permissions cli ids up gp).updates →
        ∃ c0, cli.fetch p.fst = some c0 ∧
          p.snd.name = c0.name ∧
          (jtruthy up = true → p.snd.users = up) ∧
          (jtruthy up = false → p.snd.users = c0.users) ∧
          (jtruthy gp = true → p.snd.groups = gp) ∧
          (jtruthy gp = false → p.snd.groups = c0.groups)) ∧
    ((inherit_permissions cliC6 ["c2"] upC6 (JValue.arr [])).updates = [("c2", colC2After)] ∧
      (inherit_permissions cliC6 ["c2"] upC6 (JValue.arr [])).output
        = ["Updated collection Parent/Child with users and groups.\n"] ∧
      (inherit_permissions cliC6 ["c2"] upC6 (JValue.arr [])).progress
        = ["1/1 collections processed"] ∧
      (inherit_permissions cliC6 ["c2"] upC6 (JValue.arr [])).hasFailures = false ∧
      (inherit_permissions cliC6 ["c2"] upC6 (JValue.arr [])).popup
        = Popup.info "All collections updated successfully.") := by
  constructor
  · intro cli up gp ids p hp
    simp only [inherit_permissions] at hp
    obtain ⟨c0, hf, heq⟩ :=
      inherit_updates_spec cli up gp ids.length ids
        ({ attempts := [], output := [], updates := [], progress := [], hasFailures := false }, 0)
        (by intro q hq; simp at hq) p hp
    refine ⟨c0, hf, ?_, ?_, ?_, ?_, ?_⟩ <;> rw [heq] <;> unfold applyPerms
    · by_cases h1 : jtruthy up = true <;> by_cases h2 : jtruthy gp = true <;> simp [h1, h2]
    · intro h1
      by_cases h2 : jtruthy gp = true <;> simp [h1, h2]
    · intro h1
      by_cases h2 : jtruthy gp = true <;> simp [h1, h2]
    · intro h2
      by_cases h1 : jtruthy up = true <;> simp [h1, h2]
    · intro h2
      by_cases h1 : jtruthy up = true <;> simp [h1, h2]
  · exact ⟨rfl, rfl, rfl, rfl, rfl⟩

theorem claim_c6_witness :
    ∃ c0, cliC6.fetch "c2" = some c0 ∧
      colC2After.name = c0.name ∧
      (jtruthy upC6 = true → colC2After.users = upC6) ∧
      (jtruthy upC6 = false → colC2After.users = c0.users) ∧
      (jtruthy (JValue.arr []) = true → colC2After.groups = JValue.arr []) ∧
      (jtruthy (JValue.arr []) = false → colC2After.groups = c0.groups) := by
  refine claim_c6_wholesale_replacement.1 cliC6 upC6 (JValue.arr []) ["c2"] ("c2", colC2After) ?_
  have e : (inherit_permissions cliC6 ["c2"] upC6 (JValue.arr [])).updates
      = [("c2", colC2After)] := rfl
  rw [e]
  exact List.mem_singleton.mpr rfl
